import Mathlib

/-!
Verification of the amortization and break-even engine of the mup-dashboard
repository. The engine appears three times in the source, as `computeSeries`
in `src/src/App.jsx`, as `computeSeries` in `src/unnamed/part_000`, and as
the `calc` useMemo body in `src/unnamed/part_001`. Each is embedded below in
its own namespace (`App`, `Part000`, `Part001`), translated line by line
from the JavaScript. Numbers are modelled as exact rationals (`ℚ`), which
matches the source's real-number formulas; floating-point rounding is
outside the model. A separate NaN-aware embedding (`AppJs`), whose values
are `Option ℚ` with `none` standing for a non-finite JavaScript number
(NaN), is used for the claims about non-finite inputs.
-/

/-- Rational model of a JS number record for the fixed constants object. -/
structure Constants where
  m_Al_mup : ℚ
  EF_Al_prim : ℚ
  E_fw_init : ℚ
  E_single_shot : ℚ
  E_use : ℚ
  E_clean : ℚ
  T_FACTOR_PER_100KM : ℚ
deriving DecidableEq

/-- Scenario parameter record, as destructured by `computeSeries` in
`src/src/App.jsx`. -/
structure Params where
  E_manu_mup : ℚ
  KM_ONE_WAY : ℚ
  p_ret : ℚ
  p_scr : ℚ
  E_EoL_mup : ℚ
deriving DecidableEq

/-- JS `Math.min(1, Math.max(0, x))`, the clamp used on the probabilities. -/
def clamp01 (x : ℚ) : ℚ := min 1 (max 0 x)

/-- The effective-utilization function `U_eff_js` of the source:
`if (q === 1) return N; return (1 - q ** N) / (1 - q);`. -/
def U_eff_js (N : ℕ) (q : ℚ) : ℚ :=
  if q = 1 then (N : ℚ) else (1 - q ^ N) / (1 - q)

/-- One loop iteration's amortized cost in kg:
`U = U_eff_js(N, q); E_total_lifetime = E_start + U * E_cycle + E_EoL_mup;
amort = E_total_lifetime / U`. -/
def amortOf (E_start E_cycle E_EoL q : ℚ) (N : ℕ) : ℚ :=
  (E_start + U_eff_js N q * E_cycle + E_EoL) / U_eff_js N q

/-- Accumulator state of the `for (let N = 1; N <= N_max_top; N++)` loop:
the pushed data array and the three nullable accumulators
`firstCost`, `lastCost`, `breakEven`. The value type `V` and point type `α`
are parameters so that the same loop serves the rational and the NaN-aware
embeddings. -/
structure LoopState (V : Type) (α : Type) where
  data : List α
  firstCost : Option V
  lastCost : Option V
  breakEven : Option ℕ
deriving DecidableEq

/-- Body of the source loop. `amort N` is the amortized cost at cycle `N`,
`hit a` decides `amort <= E_single_shot`, and `entry N a` is the object
pushed onto the data array. -/
def loopStep {V α : Type} (amort : ℕ → V) (hit : V → Bool) (entry : ℕ → V → α)
    (s : LoopState V α) (N : ℕ) : LoopState V α :=
  let a := amort N
  { data := s.data ++ [entry N a]
    firstCost := match s.firstCost with
      | none => some a
      | some c => some c
    lastCost := some a
    breakEven := match s.breakEven with
      | some b => some b
      | none => if hit a then some N else none }

/-- The whole loop: fold the body over `N = 1, …, n`. -/
def runLoop {V α : Type} (amort : ℕ → V) (hit : V → Bool) (entry : ℕ → V → α)
    (n : ℕ) : LoopState V α :=
  (List.range' 1 n).foldl (loopStep amort hit entry) ⟨[], none, none, none⟩

/-- One point of the series pushed by `computeSeries` in `src/src/App.jsx`
and `src/unnamed/part_000`: `{ cycle: N, MUP_g: amort * 1000, SUP_g:
E_single_shot * 1000 }`. -/
structure Point where
  cycle : ℕ
  MUP_g : ℚ
  SUP_g : ℚ
deriving DecidableEq

/-- The record returned by `computeSeries` in `src/src/App.jsx` and
`src/unnamed/part_000`. In the source, `firstCost * 1000` with `firstCost`
still `null` is JS `null * 1000 = 0`; the embedding makes that coercion
explicit with `Option.getD 0`. -/
structure SeriesResult where
  data : List Point
  q : ℚ
  E_cycle_g : ℚ
  firstCost_g : ℚ
  lastCost_g : ℚ
  breakEven : Option ℕ
deriving DecidableEq

namespace App

/-- Embedding of `computeSeries(params, constants, N_max_top)` from
`src/src/App.jsx`. The horizon is an integer; the loop runs for
`N = 1, …, N_max_top`, i.e. `N_max_top.toNat` iterations. -/
def computeSeries (params : Params) (constants : Constants) (N_max_top : ℤ) :
    SeriesResult :=
  let T_FACTOR_PER_KM := constants.T_FACTOR_PER_100KM / 100
  let E_fw := T_FACTOR_PER_KM * params.KM_ONE_WAY
  let E_rev := T_FACTOR_PER_KM * params.KM_ONE_WAY
  let E_mat_mup := constants.m_Al_mup * constants.EF_Al_prim
  let E_start := E_mat_mup + params.E_manu_mup + constants.E_fw_init
  let E_cycle := constants.E_clean + E_fw + constants.E_use + E_rev
  let q := clamp01 params.p_ret * (1 - clamp01 params.p_scr)
  let s := runLoop (amortOf E_start E_cycle params.E_EoL_mup q)
      (fun a => decide (a ≤ constants.E_single_shot))
      (fun N a => ⟨N, a * 1000, constants.E_single_shot * 1000⟩)
      N_max_top.toNat
  { data := s.data
    q := q
    E_cycle_g := E_cycle * 1000
    firstCost_g := (s.firstCost.getD 0) * 1000
    lastCost_g := (s.lastCost.getD 0) * 1000
    breakEven := s.breakEven }

/-- The amortized cost in kg computed by `computeSeries` at cycle `N`, with
the start cost, cycle cost and survival probability spelled exactly as the
source computes them. -/
def amortAt (params : Params) (constants : Constants) (N : ℕ) : ℚ :=
  amortOf
    (constants.m_Al_mup * constants.EF_Al_prim + params.E_manu_mup
      + constants.E_fw_init)
    (constants.E_clean + constants.T_FACTOR_PER_100KM / 100 * params.KM_ONE_WAY
      + constants.E_use + constants.T_FACTOR_PER_100KM / 100 * params.KM_ONE_WAY)
    params.E_EoL_mup
    (clamp01 params.p_ret * (1 - clamp01 params.p_scr)) N

end App

namespace Part000

/-- Parameter record of `src/unnamed/part_000`, whose fields may hold raw
strings from the form; `toNum` resolves each to a number. The embedding
takes already-parsed values: `some x` is a finite number `x`, `none` is a
value whose parse is non-finite (`NaN` from an unparsable string, or a
non-finite number). -/
structure JsParams where
  E_manu_mup : Option ℚ
  KM_ONE_WAY : Option ℚ
  p_ret : Option ℚ
  p_scr : Option ℚ
  E_EoL_mup : Option ℚ
deriving DecidableEq

/-- The helper `toNum(v, fallback = 0)` of `src/unnamed/part_000`:
`Number.isFinite(n) ? n : fallback`, with the fallback always 0 at its
call sites. -/
def toNum (v : Option ℚ) : ℚ := v.getD 0

/-- Embedding of `computeSeries(params, constants, N_max_top)` from
`src/unnamed/part_000`. It differs from the `App` version only in running
each parameter through `toNum` before clamping and computing. -/
def computeSeries (params : JsParams) (constants : Constants) (N_max_top : ℤ) :
    SeriesResult :=
  let E_manu_mup := toNum params.E_manu_mup
  let KM_ONE_WAY := toNum params.KM_ONE_WAY
  let p_ret := clamp01 (toNum params.p_ret)
  let p_scr := clamp01 (toNum params.p_scr)
  let E_EoL_mup := toNum params.E_EoL_mup
  let T_FACTOR_PER_KM := constants.T_FACTOR_PER_100KM / 100
  let E_fw := T_FACTOR_PER_KM * KM_ONE_WAY
  let E_rev := T_FACTOR_PER_KM * KM_ONE_WAY
  let E_mat_mup := constants.m_Al_mup * constants.EF_Al_prim
  let E_start := E_mat_mup + E_manu_mup + constants.E_fw_init
  let E_cycle := constants.E_clean + E_fw + constants.E_use + E_rev
  let q := p_ret * (1 - p_scr)
  let s := runLoop (amortOf E_start E_cycle E_EoL_mup q)
      (fun a => decide (a ≤ constants.E_single_shot))
      (fun N a => ⟨N, a * 1000, constants.E_single_shot * 1000⟩)
      N_max_top.toNat
  { data := s.data
    q := q
    E_cycle_g := E_cycle * 1000
    firstCost_g := (s.firstCost.getD 0) * 1000
    lastCost_g := (s.lastCost.getD 0) * 1000
    breakEven := s.breakEven }

end Part000

namespace Part001

/-- One point pushed by the `calc` useMemo body of `src/unnamed/part_001`:
`{ cycle: N, MUP: amort * 1000, SUP: E_single_shot * 1000, MinCycle:
E_cycle * 1000 }`. -/
structure Point001 where
  cycle : ℕ
  MUP : ℚ
  SUP : ℚ
  MinCycle : ℚ
deriving DecidableEq

/-- The record returned by the `calc` useMemo body of
`src/unnamed/part_001`; `firstCost` and `lastCost` are returned in kg and
still nullable. -/
structure CalcResult where
  q : ℚ
  E_cycle : ℚ
  firstCost : Option ℚ
  lastCost : Option ℚ
  breakEven : Option ℕ
  chartData : List Point001
  g_single_shot : ℚ
  g_cycle : ℚ
deriving DecidableEq

/-- Embedding of the `calc` useMemo body of `src/unnamed/part_001`, a
function of the five editable inputs, the constants and the horizon. Note
that this variant computes `q = p_ret * (1 - p_scr)` without clamping
either probability. -/
def calcSeries (E_manu_mup KM_ONE_WAY p_ret p_scr E_EoL_mup : ℚ)
    (constants : Constants) (N_max_top : ℤ) : CalcResult :=
  let T_FACTOR_PER_KM := constants.T_FACTOR_PER_100KM / 100
  let E_fw := T_FACTOR_PER_KM * KM_ONE_WAY
  let E_rev := T_FACTOR_PER_KM * KM_ONE_WAY
  let E_mat_mup := constants.m_Al_mup * constants.EF_Al_prim
  let E_start := E_mat_mup + E_manu_mup + constants.E_fw_init
  let E_cycle := constants.E_clean + E_fw + constants.E_use + E_rev
  let q := p_ret * (1 - p_scr)
  let s := runLoop (amortOf E_start E_cycle E_EoL_mup q)
      (fun a => decide (a ≤ constants.E_single_shot))
      (fun N a => ⟨N, a * 1000, constants.E_single_shot * 1000, E_cycle * 1000⟩)
      N_max_top.toNat
  { q := q
    E_cycle := E_cycle
    firstCost := s.firstCost
    lastCost := s.lastCost
    breakEven := s.breakEven
    chartData := s.data
    g_single_shot := constants.E_single_shot * 1000
    g_cycle := E_cycle * 1000 }

end Part001

namespace AppJs

/-- NaN-aware model of a JS number: `some x` is the finite value `x`,
`none` is NaN. (JS infinities are not distinguished from NaN here; the
claims handled with this model only involve NaN inputs, and every
operation below is exercised only at finite or NaN arguments.) -/
def JsNum : Type := Option ℚ

instance : DecidableEq JsNum := by
  unfold JsNum
  infer_instance

/-- JS addition: NaN propagates. -/
def jAdd : JsNum → JsNum → JsNum
  | some x, some y => some (x + y)
  | _, _ => none

/-- JS subtraction: NaN propagates. -/
def jSub : JsNum → JsNum → JsNum
  | some x, some y => some (x - y)
  | _, _ => none

/-- JS multiplication: NaN propagates. -/
def jMul : JsNum → JsNum → JsNum
  | some x, some y => some (x * y)
  | _, _ => none

/-- JS division: NaN propagates, and a zero divisor yields a non-finite
result (±Infinity, or NaN for 0/0), represented as `none`. -/
def jDiv : JsNum → JsNum → JsNum
  | some x, some y => if y = 0 then none else some (x / y)
  | _, _ => none

/-- JS `**` with a nonnegative integer exponent: `NaN ** 0` is 1, any other
power of NaN is NaN. -/
def jPow : JsNum → ℕ → JsNum
  | some x, n => some (x ^ n)
  | none, n => if n = 0 then some 1 else none

/-- JS `Math.max`: NaN propagates. -/
def jMax : JsNum → JsNum → JsNum
  | some x, some y => some (max x y)
  | _, _ => none

/-- JS `Math.min`: NaN propagates. -/
def jMin : JsNum → JsNum → JsNum
  | some x, some y => some (min x y)
  | _, _ => none

/-- JS `<=`: any comparison with NaN is false. -/
def jLe : JsNum → JsNum → Bool
  | some x, some y => decide (x ≤ y)
  | _, _ => false

/-- NaN-aware `U_eff_js`: the strict equality `q === 1` is false for NaN. -/
def U_eff (N : ℕ) (q : JsNum) : JsNum :=
  if q = some 1 then some (N : ℚ)
  else jDiv (jSub (some 1) (jPow q N)) (jSub (some 1) q)

/-- NaN-aware amortized cost of one loop iteration. -/
def amortOf (E_start E_cycle E_EoL q : JsNum) (N : ℕ) : JsNum :=
  jDiv (jAdd (jAdd E_start (jMul (U_eff N q) E_cycle)) E_EoL) (U_eff N q)

/-- NaN-aware scenario parameters; the constants stay finite rationals
because the source fixes them to literals. -/
structure JsParams where
  E_manu_mup : JsNum
  KM_ONE_WAY : JsNum
  p_ret : JsNum
  p_scr : JsNum
  E_EoL_mup : JsNum
deriving DecidableEq

/-- One pushed point in the NaN-aware model. -/
structure JsPoint where
  cycle : ℕ
  MUP_g : JsNum
  SUP_g : JsNum
deriving DecidableEq

/-- Result record in the NaN-aware model. JS `null * 1000` is 0, while
`NaN * 1000` is NaN, so the cost fields coerce an absent accumulator to 0
but keep NaN. -/
structure JsSeriesResult where
  data : List JsPoint
  q : JsNum
  E_cycle_g : JsNum
  firstCost_g : JsNum
  lastCost_g : JsNum
  breakEven : Option ℕ
deriving DecidableEq

/-- NaN-aware embedding of `computeSeries` from `src/src/App.jsx`: the same
line-by-line translation as `App.computeSeries`, with every arithmetic
operation replaced by its NaN-propagating counterpart. -/
def computeSeries (params : JsParams) (constants : Constants) (N_max_top : ℤ) :
    JsSeriesResult :=
  let T_FACTOR_PER_KM : JsNum := some (constants.T_FACTOR_PER_100KM / 100)
  let E_fw := jMul T_FACTOR_PER_KM params.KM_ONE_WAY
  let E_rev := jMul T_FACTOR_PER_KM params.KM_ONE_WAY
  let E_mat_mup : JsNum := some (constants.m_Al_mup * constants.EF_Al_prim)
  let E_start := jAdd (jAdd E_mat_mup params.E_manu_mup) (some constants.E_fw_init)
  let E_cycle := jAdd (jAdd (jAdd (some constants.E_clean) E_fw)
      (some constants.E_use)) E_rev
  let q := jMul (jMin (some 1) (jMax (some 0) params.p_ret))
      (jSub (some 1) (jMin (some 1) (jMax (some 0) params.p_scr)))
  let s := runLoop (amortOf E_start E_cycle params.E_EoL_mup q)
      (fun a => jLe a (some constants.E_single_shot))
      (fun N a => ⟨N, jMul a (some 1000), some (constants.E_single_shot * 1000)⟩)
      N_max_top.toNat
  { data := s.data
    q := q
    E_cycle_g := jMul E_cycle (some 1000)
    firstCost_g := jMul (s.firstCost.getD (some 0)) (some 1000)
    lastCost_g := jMul (s.lastCost.getD (some 0)) (some 1000)
    breakEven := s.breakEven }

end AppJs

/-- The fixed constants object of the source (identical in all three
files). -/
def fixedConstants : Constants :=
  { m_Al_mup := 0.00324
    EF_Al_prim := 14.77
    E_fw_init := 0.00037
    E_single_shot := 0.00437
    E_use := 0
    E_clean := 0.001
    T_FACTOR_PER_100KM := 0.00037 }

/-- The expected-case scenario parameters of spec section 8 (also the
editable-input defaults of `src/unnamed/part_001`). -/
def expectedParams : Params :=
  { E_manu_mup := 0.0008
    KM_ONE_WAY := 300
    p_ret := 0.95
    p_scr := 0.02
    E_EoL_mup := -0.0015 }

/-! ## Loop characterization lemmas -/

section LoopLemmas

variable {V α : Type} (amort : ℕ → V) (hit : V → Bool) (entry : ℕ → V → α)

theorem foldl_loopStep_data (l : List ℕ) (s : LoopState V α) :
    (l.foldl (loopStep amort hit entry) s).data
      = s.data ++ l.map (fun N => entry N (amort N)) := by
  induction l generalizing s with
  | nil => simp
  | cons a t ih =>
    rw [List.foldl_cons, ih]
    simp [loopStep]

theorem foldl_loopStep_firstCost (l : List ℕ) (s : LoopState V α) :
    (l.foldl (loopStep amort hit entry) s).firstCost
      = s.firstCost.or (l.head?.map amort) := by
  induction l generalizing s with
  | nil => cases hs : s.firstCost <;> simp [Option.or, hs]
  | cons a t ih =>
    rw [List.foldl_cons, ih]
    cases hs : s.firstCost <;> simp [loopStep, hs, Option.or]

theorem foldl_loopStep_breakEven (l : List ℕ) (s : LoopState V α) :
    (l.foldl (loopStep amort hit entry) s).breakEven
      = s.breakEven.or (l.find? (fun N => hit (amort N))) := by
  induction l generalizing s with
  | nil => cases hs : s.breakEven <;> simp [Option.or, hs]
  | cons a t ih =>
    rw [List.foldl_cons, ih]
    cases hs : s.breakEven with
    | some b => simp [loopStep, hs, Option.or]
    | none =>
      by_cases hp : hit (amort a) <;>
        simp [loopStep, hs, Option.or, List.find?_cons, hp]

theorem runLoop_data (n : ℕ) :
    (runLoop amort hit entry n).data
      = (List.range' 1 n).map (fun N => entry N (amort N)) := by
  rw [runLoop, foldl_loopStep_data]
  rfl

theorem runLoop_firstCost (n : ℕ) :
    (runLoop amort hit entry n).firstCost
      = (List.range' 1 n).head?.map amort := by
  rw [runLoop, foldl_loopStep_firstCost]
  rfl

theorem runLoop_breakEven (n : ℕ) :
    (runLoop amort hit entry n).breakEven
      = (List.range' 1 n).find? (fun N => hit (amort N)) := by
  rw [runLoop, foldl_loopStep_breakEven]
  rfl

end LoopLemmas

/-- A successful `find?` over `range' s n` returns the smallest index in the
range satisfying the predicate. -/
theorem find?_range'_min {p : ℕ → Bool} :
    ∀ {n s b : ℕ}, (List.range' s n).find? p = some b →
      p b = true ∧ s ≤ b ∧ b < s + n ∧ ∀ k, s ≤ k → k < b → p k = false := by
  intro n
  induction n with
  | zero =>
    intro s b h
    simp at h
  | succ m ih =>
    intro s b h
    rw [List.range'_succ, List.find?_cons] at h
    cases hp : p s with
    | true =>
      simp only [hp] at h
      obtain rfl : s = b := by simpa using h
      exact ⟨hp, le_refl s, by omega, fun k hk1 hk2 => absurd hk1 (by omega)⟩
    | false =>
      simp only [hp] at h
      obtain ⟨hb, hsb, hbn, hmin⟩ := ih h
      refine ⟨hb, by omega, by omega, fun k hk1 hk2 => ?_⟩
      rcases Nat.eq_or_lt_of_le hk1 with rfl | hlt
      · simpa using hp
      · exact hmin k (by omega) hk2

/-! ## Properties of the effective-utilization function -/

/-- In both of its branches, `U_eff_js N q` equals the finite geometric sum
of `q ^ i` for `i < N`. -/
theorem U_eff_js_eq_geom_sum (N : ℕ) (q : ℚ) :
    U_eff_js N q = ∑ i ∈ Finset.range N, q ^ i := by
  unfold U_eff_js
  by_cases hq : q = 1
  · subst hq
    simp
  · rw [if_neg hq, geom_sum_eq hq,
      show (1 - q ^ N) = -(q ^ N - 1) by ring,
      show (1 - q) = -(q - 1) by ring, neg_div_neg_eq]

theorem one_le_U_eff_js {N : ℕ} {q : ℚ} (hN : 1 ≤ N) (h0 : 0 ≤ q) :
    1 ≤ U_eff_js N q := by
  rw [U_eff_js_eq_geom_sum]
  calc (1 : ℚ) = ∑ i ∈ Finset.range 1, q ^ i := by simp
    _ ≤ ∑ i ∈ Finset.range N, q ^ i := by
        refine Finset.sum_le_sum_of_subset_of_nonneg
          (Finset.range_subset.mpr hN) (fun i _ _ => ?_)
        positivity

theorem U_eff_js_le {N : ℕ} {q : ℚ} (h0 : 0 ≤ q) (h1 : q ≤ 1) :
    U_eff_js N q ≤ (N : ℚ) := by
  rw [U_eff_js_eq_geom_sum]
  calc ∑ i ∈ Finset.range N, q ^ i ≤ ∑ _i ∈ Finset.range N, (1 : ℚ) :=
        Finset.sum_le_sum (fun i _ => pow_le_one₀ h0 h1)
    _ = (N : ℚ) := by simp

/-! ## Characterization of `App.computeSeries` -/

theorem App.computeSeries_data (params : Params) (constants : Constants) (h : ℤ) :
    (App.computeSeries params constants h).data
      = (List.range' 1 h.toNat).map
          (fun N => ⟨N, App.amortAt params constants N * 1000,
            constants.E_single_shot * 1000⟩) := by
  simp only [App.computeSeries, runLoop_data, App.amortAt]

theorem App.computeSeries_breakEven (params : Params) (constants : Constants)
    (h : ℤ) :
    (App.computeSeries params constants h).breakEven
      = (List.range' 1 h.toNat).find?
          (fun N =>
            decide (App.amortAt params constants N ≤ constants.E_single_shot)) := by
  simp only [App.computeSeries, runLoop_breakEven, App.amortAt]

theorem App.computeSeries_firstCost (params : Params) (constants : Constants)
    (h : ℤ) :
    (App.computeSeries params constants h).firstCost_g
      = (((List.range' 1 h.toNat).head?.map
            (App.amortAt params constants)).getD 0) * 1000 := by
  simp only [App.computeSeries, runLoop_firstCost]
  cases (List.range' 1 h.toNat).head? <;> simp [App.amortAt]

theorem clamp01_eq_self {x : ℚ} (h0 : 0 ≤ x) (h1 : x ≤ 1) : clamp01 x = x := by
  rw [clamp01, max_eq_right h0, min_eq_right h1]

theorem clamp01_eq_one {x : ℚ} (h1 : 1 ≤ x) : clamp01 x = 1 := by
  rw [clamp01, max_eq_right (by linarith), min_eq_left h1]

theorem expected_q_value :
    clamp01 expectedParams.p_ret * (1 - clamp01 expectedParams.p_scr)
      = 931 / 1000 := by
  rw [show expectedParams.p_ret = 0.95 from rfl,
    show expectedParams.p_scr = 0.02 from rfl,
    clamp01_eq_self (by norm_num) (by norm_num),
    clamp01_eq_self (by norm_num) (by norm_num)]
  norm_num

theorem expected_amort_one :
    App.amortAt expectedParams fixedConstants 1 = 63431 / 1250000 := by
  have hU : U_eff_js 1 (931 / 1000) = 1 := by
    rw [U_eff_js, if_neg (by norm_num)]
    norm_num
  rw [App.amortAt, expected_q_value, amortOf, hU]
  rw [show expectedParams.E_manu_mup = 0.0008 from rfl,
    show expectedParams.KM_ONE_WAY = 300 from rfl,
    show expectedParams.E_EoL_mup = -0.0015 from rfl]
  norm_num [fixedConstants]

/-! ## Claim theorems -/

/-- C2: the effective utilization function satisfies
`U(N, q) = (1 - q^N)/(1 - q)` for `q ≠ 1` and `U(N, 1) = N` exactly, the
`q = 1` case being an explicit branch; in the NaN-aware model `U(N, 1)`
is the finite number `N`, never NaN or infinity. -/
theorem U_eff_closed_form (N : ℕ) (hN : 1 ≤ N) :
    (∀ q : ℚ, q ≠ 1 → U_eff_js N q = (1 - q ^ N) / (1 - q))
    ∧ U_eff_js N 1 = (N : ℚ)
    ∧ AppJs.U_eff N (some 1) = some (N : ℚ) := by
  refine ⟨fun q hq => ?_, ?_, ?_⟩
  · rw [U_eff_js, if_neg hq]
  · rw [U_eff_js, if_pos rfl]
  · rw [AppJs.U_eff, if_pos rfl]

/-- Witness for C2 at `N = 2`. -/
theorem U_eff_closed_form_witness :
    1 ≤ 2
    ∧ U_eff_js 2 (1 / 2) = (1 - (1 / 2 : ℚ) ^ 2) / (1 - 1 / 2)
    ∧ U_eff_js 2 1 = (2 : ℚ)
    ∧ AppJs.U_eff 2 (some 1) = some (2 : ℚ) :=
  ⟨by decide, (U_eff_closed_form 2 (by decide)).1 (1 / 2) (by norm_num),
    (U_eff_closed_form 2 (by decide)).2.1, (U_eff_closed_form 2 (by decide)).2.2⟩

/-- C3: for every `q ∈ [0, 1]` and `N ≥ 1`, `1 ≤ U(N, q) ≤ N`, so the
divisor of `amort = E_total_lifetime / U` is never zero. -/
theorem U_bounds_division_safe (q : ℚ) (N : ℕ) (h0 : 0 ≤ q) (h1 : q ≤ 1)
    (hN : 1 ≤ N) :
    1 ≤ U_eff_js N q ∧ U_eff_js N q ≤ (N : ℚ) ∧ U_eff_js N q ≠ 0 := by
  have ha := one_le_U_eff_js hN h0
  exact ⟨ha, U_eff_js_le h0 h1, (lt_of_lt_of_le zero_lt_one ha).ne'⟩

/-- Witness for C3 at `q = 1/2`, `N = 3`. -/
theorem U_bounds_division_safe_witness :
    (0 : ℚ) ≤ 1 / 2 ∧ (1 / 2 : ℚ) ≤ 1 ∧ 1 ≤ 3
    ∧ (1 ≤ U_eff_js 3 (1 / 2) ∧ U_eff_js 3 (1 / 2) ≤ (3 : ℚ)
        ∧ U_eff_js 3 (1 / 2) ≠ 0) :=
  ⟨by norm_num, by norm_num, by norm_num,
    U_bounds_division_safe (1 / 2) 3 (by norm_num) (by norm_num) (by norm_num)⟩

/-- C1: for every valid input and every `N` from 1 to the horizon, the
amortized emissions value recorded for cycle `N` (stored in grams, hence
the factor 1000) equals `(start_cost + U(N,q) * cycle_cost +
end_of_life_balance) / U(N,q)` with `start_cost = mass * EF_primary +
manufacturing + initial_logistics`, `cycle_cost = cleaning + use +
2 * (transport_factor/100) * distance`, and
`q = clamp(p_ret) * (1 - clamp(p_scr))`. -/
theorem amortized_value_formula (params : Params) (constants : Constants)
    (h : ℤ) (N : ℕ) (hN1 : 1 ≤ N) (hNh : (N : ℤ) ≤ h) :
    ((App.computeSeries params constants h).data)[N - 1]?
      = some ⟨N,
          (constants.m_Al_mup * constants.EF_Al_prim + params.E_manu_mup
              + constants.E_fw_init
            + U_eff_js N (clamp01 params.p_ret * (1 - clamp01 params.p_scr))
              * (constants.E_clean + constants.E_use
                + 2 * (constants.T_FACTOR_PER_100KM / 100) * params.KM_ONE_WAY)
            + params.E_EoL_mup)
          / U_eff_js N (clamp01 params.p_ret * (1 - clamp01 params.p_scr))
          * 1000,
          constants.E_single_shot * 1000⟩ := by
  have hn : N - 1 < h.toNat := by omega
  have h1 : 1 + 1 * (N - 1) = N := by omega
  rw [App.computeSeries_data, List.getElem?_map,
    List.getElem?_range' 1 1 hn, h1, Option.map_some']
  have hc : constants.E_clean
        + constants.T_FACTOR_PER_100KM / 100 * params.KM_ONE_WAY
        + constants.E_use
        + constants.T_FACTOR_PER_100KM / 100 * params.KM_ONE_WAY
      = constants.E_clean + constants.E_use
        + 2 * (constants.T_FACTOR_PER_100KM / 100) * params.KM_ONE_WAY := by
    ring
  rw [App.amortAt, amortOf, hc]

/-- Witness for C1 at the expected-case inputs, horizon 2, cycle 1. -/
theorem amortized_value_formula_witness :
    1 ≤ 1 ∧ ((1 : ℤ) ≤ 2)
    ∧ ((App.computeSeries expectedParams fixedConstants 2).data)[1 - 1]?
      = some ⟨1,
          (fixedConstants.m_Al_mup * fixedConstants.EF_Al_prim
              + expectedParams.E_manu_mup + fixedConstants.E_fw_init
            + U_eff_js 1 (clamp01 expectedParams.p_ret
                * (1 - clamp01 expectedParams.p_scr))
              * (fixedConstants.E_clean + fixedConstants.E_use
                + 2 * (fixedConstants.T_FACTOR_PER_100KM / 100)
                  * expectedParams.KM_ONE_WAY)
            + expectedParams.E_EoL_mup)
          / U_eff_js 1 (clamp01 expectedParams.p_ret
              * (1 - clamp01 expectedParams.p_scr))
          * 1000,
          fixedConstants.E_single_shot * 1000⟩ :=
  ⟨by decide, by decide,
    amortized_value_formula expectedParams fixedConstants 2 1
      (by decide) (by decide)⟩

/-- C4: a reported break-even cycle is the smallest `N` in `1..horizon`
whose amortized value is at most the single-use reference, and when no
cycle in the horizon satisfies the condition the result is `none`. -/
theorem break_even_first_crossing (params : Params) (constants : Constants)
    (h : ℤ) :
    (∀ b, (App.computeSeries params constants h).breakEven = some b →
        1 ≤ b ∧ (b : ℤ) ≤ h
        ∧ App.amortAt params constants b ≤ constants.E_single_shot
        ∧ ∀ N, 1 ≤ N → N < b →
            ¬ App.amortAt params constants N ≤ constants.E_single_shot)
    ∧ ((App.computeSeries params constants h).breakEven = none →
        ∀ N : ℕ, 1 ≤ N → (N : ℤ) ≤ h →
          ¬ App.amortAt params constants N ≤ constants.E_single_shot) := by
  constructor
  · intro b hb
    rw [App.computeSeries_breakEven] at hb
    obtain ⟨hpb, h1b, hbn, hmin⟩ := find?_range'_min hb
    refine ⟨h1b, by omega, by simpa using hpb, fun N hN1 hNb => ?_⟩
    simpa using hmin N hN1 hNb
  · intro hnone N hN1 hNh
    rw [App.computeSeries_breakEven, List.find?_eq_none] at hnone
    have hmem : N ∈ List.range' 1 h.toNat := by
      rw [List.mem_range'_1]
      omega
    simpa using hnone N hmem

/-- C5: for horizon `h ≥ 1` the series has exactly `h` entries, the cycle
indices are `1, 2, …, h` in order, and every entry carries the constant
single-use reference value. -/
theorem series_shape (params : Params) (constants : Constants) (h : ℤ)
    (hh : 1 ≤ h) :
    ((App.computeSeries params constants h).data.length : ℤ) = h
    ∧ (App.computeSeries params constants h).data.map Point.cycle
        = List.range' 1 h.toNat
    ∧ ∀ pt ∈ (App.computeSeries params constants h).data,
        pt.SUP_g = constants.E_single_shot * 1000 := by
  rw [App.computeSeries_data]
  refine ⟨?_, ?_, ?_⟩
  · rw [List.length_map, List.length_range']
    omega
  · rw [List.map_map]
    exact List.map_id _
  · intro pt hpt
    rw [List.mem_map] at hpt
    obtain ⟨N, _, rfl⟩ := hpt
    rfl

/-- Witness for C5 at horizon 3. -/
theorem series_shape_witness :
    (1 : ℤ) ≤ 3
    ∧ (App.computeSeries expectedParams fixedConstants 3).data.map Point.cycle
        = List.range' 1 (3 : ℤ).toNat :=
  ⟨by decide,
    (series_shape expectedParams fixedConstants 3 (by decide)).2.1⟩

/-- C6 counterexample: the `calc` body of `src/unnamed/part_001` does not
clamp the probabilities, so `p_ret = 1.5` produces a different output than
`p_ret = 1.0` there (already the reported survival probability `q`
differs: 1.5 versus 1). -/
theorem part001_unclamped_counterexample :
    Part001.calcSeries 0 0 (3 / 2) 0 0 fixedConstants 2
      ≠ Part001.calcSeries 0 0 1 0 0 fixedConstants 2 := by
  intro hEq
  have hq := congrArg Part001.CalcResult.q hEq
  simp only [Part001.calcSeries] at hq
  norm_num at hq

/-- C6 amended: `p_ret` and `p_scr` are clamped to [0,1] before `q` is
computed in `computeSeries` of `src/src/App.jsx` and of
`src/unnamed/part_000`, where `p_ret = 1.5` behaves exactly as
`p_ret = 1.0`; the third implementation (`src/unnamed/part_001`) computes
`q` without clamping, so the claim fails there. -/
theorem clamping_in_app_and_part000 (a km ps eol : ℚ) (c : Constants)
    (h : ℤ) :
    App.computeSeries ⟨a, km, 3 / 2, ps, eol⟩ c h
      = App.computeSeries ⟨a, km, 1, ps, eol⟩ c h
    ∧ Part000.computeSeries ⟨some a, some km, some (3 / 2), some ps, some eol⟩ c h
      = Part000.computeSeries ⟨some a, some km, some 1, some ps, some eol⟩ c h := by
  have hc : clamp01 (3 / 2) = clamp01 1 := by
    rw [clamp01_eq_one (by norm_num), clamp01_eq_one (by norm_num)]
  constructor
  · simp only [App.computeSeries, hc]
  · simp only [Part000.computeSeries, Part000.toNum, Option.getD_some, hc]

/-- C9: the engine is a pure function of its three inputs; identical
parameter records, constants and horizon give identical results. -/
theorem computeSeries_deterministic (p₁ p₂ : Params) (c₁ c₂ : Constants)
    (h₁ h₂ : ℤ) (hp : p₁ = p₂) (hc : c₁ = c₂) (hh : h₁ = h₂) :
    App.computeSeries p₁ c₁ h₁ = App.computeSeries p₂ c₂ h₂ := by
  rw [hp, hc, hh]

/-- Witness for C9 at the expected-case inputs. -/
theorem computeSeries_deterministic_witness :
    expectedParams = expectedParams ∧ fixedConstants = fixedConstants
    ∧ (5 : ℤ) = 5
    ∧ App.computeSeries expectedParams fixedConstants 5
        = App.computeSeries expectedParams fixedConstants 5 :=
  ⟨rfl, rfl, rfl,
    computeSeries_deterministic expectedParams expectedParams fixedConstants
      fixedConstants 5 5 rfl rfl rfl⟩

/-- C10: for any horizon below 1 the loop body never runs, and
`computeSeries` (both in `src/src/App.jsx` and `src/unnamed/part_000`)
returns an empty series, a `none` break-even and first/last costs derived
from the still-null accumulators (JS `null * 1000` is 0) instead of
signalling an error. -/
theorem low_horizon_returns_empty (p : Params) (jp : Part000.JsParams)
    (c : Constants) (h : ℤ) (hh : h < 1) :
    (App.computeSeries p c h).data = []
    ∧ (App.computeSeries p c h).breakEven = none
    ∧ (App.computeSeries p c h).firstCost_g = 0
    ∧ (App.computeSeries p c h).lastCost_g = 0
    ∧ (Part000.computeSeries jp c h).data = []
    ∧ (Part000.computeSeries jp c h).breakEven = none
    ∧ (Part000.computeSeries jp c h).firstCost_g = 0
    ∧ (Part000.computeSeries jp c h).lastCost_g = 0 := by
  have h0 : h.toNat = 0 := by omega
  simp [App.computeSeries, Part000.computeSeries, runLoop, h0]

/-- Witness for C10 at horizon 0. -/
theorem low_horizon_returns_empty_witness :
    (0 : ℤ) < 1
    ∧ ((App.computeSeries expectedParams fixedConstants 0).data = []
    ∧ (App.computeSeries expectedParams fixedConstants 0).breakEven = none
    ∧ (App.computeSeries expectedParams fixedConstants 0).firstCost_g = 0
    ∧ (App.computeSeries expectedParams fixedConstants 0).lastCost_g = 0
    ∧ (Part000.computeSeries ⟨none, none, none, none, none⟩ fixedConstants 0).data = []
    ∧ (Part000.computeSeries ⟨none, none, none, none, none⟩ fixedConstants 0).breakEven = none
    ∧ (Part000.computeSeries ⟨none, none, none, none, none⟩ fixedConstants 0).firstCost_g = 0
    ∧ (Part000.computeSeries ⟨none, none, none, none, none⟩ fixedConstants 0).lastCost_g = 0) :=
  ⟨by decide,
    low_horizon_returns_empty expectedParams ⟨none, none, none, none, none⟩
      fixedConstants 0 (by decide)⟩

/-- C7 counterexample: with a NaN manufacturing parameter,
`computeSeries` does not fail; it returns a series whose amortized value
is NaN (`none` in the model). -/
theorem nan_series_counterexample :
    (AppJs.computeSeries ⟨none, some 0, some 1, some 0, some 0⟩
        fixedConstants 1).data
      = [⟨1, none, some (437 / 100)⟩] := by
  simp only [AppJs.computeSeries, runLoop_data]
  norm_num [AppJs.amortOf, AppJs.jAdd, AppJs.jMul, AppJs.jDiv,
    List.range', fixedConstants]

/-- C7 amended: `computeSeries` performs no finiteness validation and has
no error outcome. In `src/src/App.jsx` a NaN parameter propagates NaN into
every series entry, while `src/unnamed/part_000` silently replaces a
non-finite parameter by the fallback 0 via `toNum` and proceeds; neither
signals an InvalidInput error. -/
theorem no_invalid_input_error (c : Constants) (km pr ps eol : ℚ) (h : ℤ)
    (hh : 1 ≤ h) :
    ((AppJs.computeSeries ⟨none, some km, some pr, some ps, some eol⟩
        c h).data.length : ℤ) = h
    ∧ (AppJs.computeSeries ⟨none, some km, some pr, some ps, some eol⟩
        c h).data
      = (List.range' 1 h.toNat).map
          (fun N => ⟨N, none, some (c.E_single_shot * 1000)⟩)
    ∧ Part000.computeSeries ⟨none, some km, some pr, some ps, some eol⟩ c h
      = Part000.computeSeries ⟨some 0, some km, some pr, some ps, some eol⟩
          c h := by
  refine ⟨?_, ?_, ?_⟩
  · simp only [AppJs.computeSeries, runLoop_data, List.length_map,
      List.length_range']
    omega
  · simp only [AppJs.computeSeries, runLoop_data]
    rfl
  · rfl

/-- Witness for the amended C7 at horizon 1. -/
theorem no_invalid_input_error_witness :
    (1 : ℤ) ≤ 1
    ∧ ((AppJs.computeSeries ⟨none, some 0, some 1, some 0, some 0⟩
        fixedConstants 1).data.length : ℤ) = 1
    ∧ (AppJs.computeSeries ⟨none, some 0, some 1, some 0, some 0⟩
        fixedConstants 1).data
      = (List.range' 1 (1 : ℤ).toNat).map
          (fun N => ⟨N, none, some (fixedConstants.E_single_shot * 1000)⟩)
    ∧ Part000.computeSeries ⟨none, some 0, some 1, some 0, some 0⟩
        fixedConstants 1
      = Part000.computeSeries ⟨some 0, some 0, some 1, some 0, some 0⟩
          fixedConstants 1 := by
  have hmain := no_invalid_input_error fixedConstants 0 1 0 0 1 (by decide)
  exact ⟨by decide, hmain.1, hmain.2.1, hmain.2.2⟩

/-- C8 counterexample: with the section 8 expected-case inputs the exact
amortized value at `N = 1` is 0.0507448 kg, which differs from the spec's
0.05073 kg by 1.48e-5 — more than a floating-point tolerance (here even
more than 1e-5). -/
theorem expected_amortized_value_counterexample :
    ¬ |(App.computeSeries expectedParams fixedConstants 50).firstCost_g
          / 1000 - 5073 / 100000| ≤ 1 / 100000 := by
  rw [App.computeSeries_firstCost,
    show (List.range' 1 (50 : ℤ).toNat).head? = some 1 from rfl,
    Option.map_some', Option.getD_some, expected_amort_one,
    abs_of_nonneg (by norm_num)]
  norm_num

/-- C8 amended: with the section 8 expected-case inputs and horizon 50,
`q` is exactly 0.931 and the amortized value at `N = 1` is exactly
0.0507448 kg (50.7448 g), which is within 2e-5 kg of the spec's rounded
0.05073 kg but not within floating-point tolerance of it. -/
theorem expected_case_exact_values :
    (App.computeSeries expectedParams fixedConstants 50).q = 931 / 1000
    ∧ (App.computeSeries expectedParams fixedConstants 50).firstCost_g
        = 63431 / 1250
    ∧ |(63431 : ℚ) / 1250 / 1000 - 5073 / 100000| < 2 / 100000 := by
  refine ⟨?_, ?_, ?_⟩
  · simp only [App.computeSeries]
    exact expected_q_value
  · rw [App.computeSeries_firstCost,
      show (List.range' 1 (50 : ℤ).toNat).head? = some 1 from rfl,
      Option.map_some', Option.getD_some, expected_amort_one]
    norm_num
  · rw [abs_of_nonneg (by norm_num)]
    norm_num
